import Mathlib

/-!
Shallow embedding of the LoA Worker message-to-case workflow engine
(`src/core`, `src/state`, `src/actions`, `src/storage`, `src/pipeline`,
`src/llm`) together with proofs of the behavioural properties claimed
for it.  Python dictionaries are modelled as insertion-ordered
association lists, datetimes as natural-number ticks, floats as
rationals, and raised exceptions as `Except` errors.  External I/O
boundaries (the LLM provider, Firestore) are modelled as explicit
oracles / in-memory stores.
-/

namespace LoaWorker

/-- Case status enum (`core/enums.py`, `CaseStatus`). -/
inductive CaseStatus
  | open_
  | in_progress
  | awaiting_info
  | complete
  | cancelled
deriving DecidableEq, Repr

/-- String value of a `CaseStatus`, as in the Python enum. -/
def CaseStatus.value : CaseStatus → String
  | .open_ => "OPEN"
  | .in_progress => "IN_PROGRESS"
  | .awaiting_info => "AWAITING_INFO"
  | .complete => "COMPLETE"
  | .cancelled => "CANCELLED"

/-- Case type enum (`core/enums.py`, `CaseType`). -/
inductive CaseType
  | loa
  | general
  | annual_review
deriving DecidableEq, Repr

/-- Message category enum (`core/enums.py`, `MessageCategory`). -/
inductive MessageCategory
  | client_task
  | loa_chase
  | loa_missing_info
  | loa_response
  | admin
  | irrelevant
deriving DecidableEq, Repr

/-- Action type enum (`core/enums.py`, `ActionType`). -/
inductive ActionType
  | create_case
  | update_case
  | complete_case
  | cancel_case
  | create_task
  | complete_task
  | draft_followup_email
  | initiate_loa_chase
  | ignore
deriving DecidableEq, Repr

/-- `core/models.py`, `FieldValue`: one received field of a case. -/
structure FieldValue where
  field_name : String
  value : String
  received_at : Nat
  source_message_id : String
  confidence : Rat := 1
deriving DecidableEq, Repr

/-- `core/models.py`, `Case`.  `received_fields` models the Python dict as an
insertion-ordered association list with pairwise-distinct keys. -/
structure Case where
  id : String
  client_name : String
  case_title : String
  case_type : CaseType
  status : CaseStatus := .open_
  required_fields : List String := []
  received_fields : List (String × FieldValue) := []
  created_at : Nat := 0
  updated_at : Nat := 0
  completed_at : Option Nat := none
  notes : String := ""
deriving DecidableEq, Repr

/-- Key set of the received-fields dict. -/
def Case.receivedKeys (c : Case) : List String :=
  c.received_fields.map Prod.fst

/-- `Case.is_complete` (`core/models.py`): non-LoA cases are complete iff the
status is COMPLETE; LoA cases iff every required field name is among the
received-field keys (`required.issubset(received)`). -/
def Case.is_complete (c : Case) : Bool :=
  if c.case_type ≠ CaseType.loa then decide (c.status = CaseStatus.complete)
  else c.required_fields.all (fun f => c.receivedKeys.contains f)

/-- `Case.get_missing_fields` (`core/models.py`).  The Python code builds
`list(required - received)` on sets; the filter below agrees with it up to
order and duplicates, and in particular is empty iff the set difference is. -/
def Case.get_missing_fields (c : Case) : List String :=
  c.required_fields.filter (fun f => ¬ c.receivedKeys.contains f)

/-- `Case.get_completion_percentage` (`core/models.py`), with the float
arithmetic carried out in `Rat`. -/
def Case.get_completion_percentage (c : Case) : Rat :=
  if c.required_fields = [] then 100
  else ((c.required_fields.filter (fun f => c.receivedKeys.contains f)).length : Rat)
    / (c.required_fields.length : Rat) * 100

/-- Domain exceptions (`core/exceptions.py`), each carrying its message. -/
inductive DomainError
  | invalid_state_transition (msg : String)
  | case_not_found (msg : String)
  | storage (msg : String)
  | action_execution (msg : String)
deriving DecidableEq, Repr

/-- `str(e)` of a domain exception. -/
def DomainError.message : DomainError → String
  | .invalid_state_transition m => m
  | .case_not_found m => m
  | .storage m => m
  | .action_execution m => m

/-- `CaseStateMachine.VALID_TRANSITIONS` (`state/case_state.py`). -/
def VALID_TRANSITIONS : CaseStatus → List CaseStatus
  | .open_ => [.in_progress, .cancelled]
  | .in_progress => [.awaiting_info, .complete, .cancelled]
  | .awaiting_info => [.in_progress, .complete, .cancelled]
  | .complete => []
  | .cancelled => []

/-- `CaseStateMachine.can_transition`: same-state transitions are always
permitted, otherwise membership in the transition table decides. -/
def can_transition (from_status to_status : CaseStatus) : Bool :=
  decide (from_status = to_status) || (VALID_TRANSITIONS from_status).contains to_status

/-- The case produced by a successful `transition`: status updated and, exactly
when entering COMPLETE, a completion timestamp stamped. -/
def transitionResult (c : Case) (new_status : CaseStatus) (now : Nat) : Case :=
  { c with
    status := new_status,
    completed_at := if new_status = CaseStatus.complete then some now else c.completed_at }

/-- `CaseStateMachine.transition` (`state/case_state.py`).  With validation on,
an invalid transition raises `InvalidStateTransitionError` before any mutation. -/
def transition (c : Case) (new_status : CaseStatus) (validate : Bool) (now : Nat) :
    Except DomainError Case :=
  if validate && ! can_transition c.status new_status then
    .error (.invalid_state_transition
      ("Invalid state transition for case " ++ c.id ++ ": "
        ++ c.status.value ++ " → " ++ new_status.value))
  else
    .ok (transitionResult c new_status now)

/-- `CaseStateMachine.should_auto_transition` (`state/case_state.py`). -/
def should_auto_transition (c : Case) : Option CaseStatus :=
  if c.case_type = CaseType.loa then
    if c.status = CaseStatus.in_progress ∨ c.status = CaseStatus.awaiting_info then
      if c.is_complete then some CaseStatus.complete
      else if c.get_missing_fields ≠ [] then
        if c.status ≠ CaseStatus.awaiting_info then some CaseStatus.awaiting_info
        else none
      else none
    else none
  else none

/-- For an LoA case, having no missing fields is the same as being complete. -/
theorem loa_missing_iff (c : Case) (h : c.case_type = CaseType.loa) :
    c.get_missing_fields = [] ↔ c.is_complete = true := by
  simp only [Case.get_missing_fields, Case.is_complete, h]
  simp [List.filter_eq_nil_iff, List.all_eq_true]

/-- Claim C1: with validation enabled, `CaseStateMachine.transition` raises an
invalid-state-transition error (and produces no updated case, so the status is
unchanged) exactly on the pairs `(from, to)` with `from ≠ to` and `to` outside
the transition table; and for `from = to` it always succeeds as a status-
preserving no-op. -/
theorem transition_validates_table (c : Case) (t : CaseStatus) (now : Nat) :
    (c.status ≠ t → (VALID_TRANSITIONS c.status).contains t = false →
      transition c t true now =
        Except.error (DomainError.invalid_state_transition
          ("Invalid state transition for case " ++ c.id ++ ": "
            ++ c.status.value ++ " → " ++ t.value))) ∧
    (c.status = t → ∃ c', transition c t true now = Except.ok c' ∧ c'.status = c.status) := by
  constructor
  · intro hne hmem
    have hcan : can_transition c.status t = false := by
      unfold can_transition
      rw [hmem]
      simp [hne]
    simp [transition, hcan]
  · intro heq
    have hcan : can_transition c.status t = true := by
      simp [can_transition, heq]
    have hres : transition c t true now = Except.ok (transitionResult c t now) := by
      simp [transition, hcan]
    exact ⟨_, hres, heq.symm⟩

/-- Concrete instance of `transition_validates_table`: COMPLETE → OPEN is
rejected with the exact error, and OPEN → OPEN succeeds with status OPEN. -/
def c1Case : Case :=
  { id := "c1", client_name := "A", case_title := "T",
    case_type := CaseType.loa, status := CaseStatus.complete }

/-- Same case but with status OPEN, for the no-op half of the witness. -/
def c1CaseOpen : Case := { c1Case with status := CaseStatus.open_ }

theorem transition_validates_table_witness :
    (transition c1Case CaseStatus.open_ true 0 =
      Except.error (DomainError.invalid_state_transition
        ("Invalid state transition for case " ++ c1Case.id ++ ": "
          ++ c1Case.status.value ++ " → " ++ CaseStatus.open_.value))) ∧
    (∃ c', transition c1CaseOpen CaseStatus.open_ true 0 = Except.ok c'
      ∧ c'.status = c1CaseOpen.status) :=
  ⟨(transition_validates_table c1Case CaseStatus.open_ 0).1 (by decide) (by decide),
   (transition_validates_table c1CaseOpen CaseStatus.open_ 0).2 rfl⟩

/-- Claim C3: for LoA cases `is_complete` holds iff every required field name
is among the received keys, and is independent of the status; for non-LoA
cases it holds iff the status is COMPLETE; and with no required fields the
completion percentage is 100 and an LoA case is complete. -/
theorem is_complete_characterization (c : Case) (s : CaseStatus) :
    (c.case_type = CaseType.loa →
      (c.is_complete = true ↔ ∀ f ∈ c.required_fields, f ∈ c.receivedKeys)) ∧
    (c.case_type = CaseType.loa →
      ({ c with status := s } : Case).is_complete = c.is_complete) ∧
    (c.case_type ≠ CaseType.loa → (c.is_complete = true ↔ c.status = CaseStatus.complete)) ∧
    (c.required_fields = [] →
      c.get_completion_percentage = 100 ∧
      (c.case_type = CaseType.loa → c.is_complete = true)) := by
  refine ⟨?_, ?_, ?_, ?_⟩
  · intro hloa
    simp [Case.is_complete, hloa, List.all_eq_true]
  · intro hloa
    simp [Case.is_complete, Case.receivedKeys, hloa]
  · intro hnl
    simp [Case.is_complete, hnl]
  · intro hreq
    constructor
    · simp [Case.get_completion_percentage, hreq]
    · intro hloa
      simp [Case.is_complete, hloa, hreq]

/-- Concrete LoA case for the C3 witness: one required field, received. -/
def c3Case : Case :=
  { id := "c3", client_name := "B", case_title := "T", case_type := CaseType.loa,
    status := CaseStatus.open_, required_fields := ["date_of_birth"],
    received_fields := [("date_of_birth",
      { field_name := "date_of_birth", value := "1980-01-01",
        received_at := 1, source_message_id := "m1" })] }

theorem is_complete_characterization_witness :
    (c3Case.is_complete = true ↔ ∀ f ∈ c3Case.required_fields, f ∈ c3Case.receivedKeys) ∧
    (({ c3Case with status := CaseStatus.cancelled } : Case).is_complete = c3Case.is_complete) ∧
    (({ c3Case with required_fields := [] } : Case).get_completion_percentage = 100 ∧
      (({ c3Case with required_fields := [] } : Case).case_type = CaseType.loa →
        ({ c3Case with required_fields := [] } : Case).is_complete = true)) :=
  ⟨(is_complete_characterization c3Case CaseStatus.cancelled).1 rfl,
   (is_complete_characterization c3Case CaseStatus.cancelled).2.1 rfl,
   (is_complete_characterization { c3Case with required_fields := [] }
      CaseStatus.cancelled).2.2.2 rfl⟩

/-- Claim C8: `should_auto_transition` suggests a status only for LoA cases in
IN_PROGRESS or AWAITING_INFO: COMPLETE when every required field is received,
AWAITING_INFO when a field is missing and the case is not already awaiting
info, and no suggestion in every other situation. -/
theorem should_auto_transition_characterization (c : Case) :
    (c.case_type ≠ CaseType.loa → should_auto_transition c = none) ∧
    (c.status ≠ CaseStatus.in_progress → c.status ≠ CaseStatus.awaiting_info →
      should_auto_transition c = none) ∧
    (c.case_type = CaseType.loa →
      (c.status = CaseStatus.in_progress ∨ c.status = CaseStatus.awaiting_info) →
      c.is_complete = true → should_auto_transition c = some CaseStatus.complete) ∧
    (c.case_type = CaseType.loa → c.status = CaseStatus.in_progress →
      c.get_missing_fields ≠ [] → should_auto_transition c = some CaseStatus.awaiting_info) ∧
    (c.case_type = CaseType.loa → c.status = CaseStatus.awaiting_info →
      c.get_missing_fields ≠ [] → should_auto_transition c = none) := by
  refine ⟨?_, ?_, ?_, ?_, ?_⟩
  · intro hnl
    simp [should_auto_transition, hnl]
  · intro h1 h2
    simp [should_auto_transition, h1, h2]
  · intro hloa hst hcomp
    simp [should_auto_transition, hloa, hst, hcomp]
  · intro hloa hst hmiss
    have hcomp : c.is_complete = false := by
      rcases h : c.is_complete with _ | _
      · rfl
      · exact absurd ((loa_missing_iff c hloa).mpr h) hmiss
    simp [should_auto_transition, hloa, hst, hcomp, hmiss]
  · intro hloa hst hmiss
    have hcomp : c.is_complete = false := by
      rcases h : c.is_complete with _ | _
      · rfl
      · exact absurd ((loa_missing_iff c hloa).mpr h) hmiss
    simp [should_auto_transition, hloa, hst, hcomp, hmiss]

/-- The spec's own example for C8: required DOB and NI, only DOB received. -/
def c8Case : Case :=
  { id := "c8", client_name := "C", case_title := "T", case_type := CaseType.loa,
    status := CaseStatus.in_progress, required_fields := ["DOB", "NI"],
    received_fields := [("DOB",
      { field_name := "DOB", value := "1980-01-01",
        received_at := 1, source_message_id := "m1" })] }

theorem should_auto_transition_characterization_witness :
    should_auto_transition c8Case = some CaseStatus.awaiting_info ∧
    should_auto_transition { c8Case with case_type := CaseType.general } = none :=
  ⟨(should_auto_transition_characterization c8Case).2.2.2.1 rfl rfl (by decide),
   (should_auto_transition_characterization
      { c8Case with case_type := CaseType.general }).1 (by decide)⟩

/-- Python dict assignment `m[k] = v` on an insertion-ordered association
list: an existing key keeps its position and receives the new value; a new
key is appended at the end. -/
def dictInsert (m : List (String × FieldValue)) (k : String) (v : FieldValue) :
    List (String × FieldValue) :=
  if (m.map Prod.fst).contains k then
    m.map (fun p => if p.1 = k then (k, v) else p)
  else m ++ [(k, v)]

/-- Python `m.get(k)`: the entry stored under key `k`, if any. -/
def dictGet (m : List (String × FieldValue)) (k : String) : Option FieldValue :=
  (m.find? (fun p => p.1 == k)).map Prod.snd

theorem find_replace (m : List (String × FieldValue)) (k : String) (v : FieldValue)
    (hc : k ∈ m.map Prod.fst) :
    (m.map (fun p => if p.1 = k then (k, v) else p)).find? (fun p => p.1 == k) = some (k, v) := by
  induction m with
  | nil => simp at hc
  | cons p rest ih =>
    by_cases hpk : p.1 = k
    · simp [hpk]
    · have hc' : k ∈ rest.map Prod.fst := by
        rcases (by simpa using hc) with h | h
        · exact absurd h.symm hpk
        · simpa using h
      simpa [hpk] using ih hc'

theorem find_replace_ne (m : List (String × FieldValue)) (k : String) (v : FieldValue)
    (k' : String) (h : k' ≠ k) :
    (m.map (fun p => if p.1 = k then (k, v) else p)).find? (fun p => p.1 == k') =
      m.find? (fun p => p.1 == k') := by
  induction m with
  | nil => simp
  | cons p rest ih =>
    by_cases hpk : p.1 = k
    · rw [List.map_cons, if_pos hpk,
        List.find?_cons_of_neg _ (by simp [Ne.symm h]),
        List.find?_cons_of_neg _ (by rw [hpk]; simp [Ne.symm h])]
      exact ih
    · rw [List.map_cons, if_neg hpk]
      by_cases hpk' : p.1 = k'
      · rw [List.find?_cons_of_pos _ (by simp [hpk']),
          List.find?_cons_of_pos _ (by simp [hpk'])]
      · rw [List.find?_cons_of_neg _ (by simp [hpk']),
          List.find?_cons_of_neg _ (by simp [hpk'])]
        exact ih

theorem filter_no_key (m : List (String × FieldValue)) (k : String)
    (hk : k ∉ m.map Prod.fst) :
    m.filter (fun p => p.1 == k) = [] := by
  induction m with
  | nil => simp
  | cons p rest ih =>
    have hpk : ¬ p.1 = k := fun h => hk (by simp [h])
    have hk' : k ∉ rest.map Prod.fst := fun h => hk (by simp [h])
    simp [hpk, ih hk']

theorem replace_absent (m : List (String × FieldValue)) (k : String) (v : FieldValue)
    (hk : k ∉ m.map Prod.fst) :
    m.map (fun p => if p.1 = k then (k, v) else p) = m := by
  induction m with
  | nil => rfl
  | cons q t ih =>
    have hqk : ¬ q.1 = k := fun h => hk (by simp [h])
    have h2 : k ∉ t.map Prod.fst := fun h => hk (by simp [h])
    simp [hqk, ih h2]

theorem filter_replace_length (m : List (String × FieldValue)) (k : String) (v : FieldValue)
    (hnd : (m.map Prod.fst).Nodup) (hc : k ∈ m.map Prod.fst) :
    ((m.map (fun p => if p.1 = k then (k, v) else p)).filter (fun p => p.1 == k)).length = 1 := by
  induction m with
  | nil => simp at hc
  | cons p rest ih =>
    rw [List.map_cons] at hnd
    rcases List.nodup_cons.mp hnd with ⟨hph, hpn⟩
    by_cases hpk : p.1 = k
    · have hkr : k ∉ rest.map Prod.fst := hpk ▸ hph
      simp [hpk, replace_absent rest k v hkr, filter_no_key rest k hkr]
    · have hc' : k ∈ rest.map Prod.fst := by
        rcases (by simpa using hc) with h | h
        · exact absurd h.symm hpk
        · simpa using h
      simpa [hpk] using ih hpn hc'

theorem keys_dictInsert (m : List (String × FieldValue)) (k : String) (v : FieldValue) :
    (dictInsert m k v).map Prod.fst =
      if (m.map Prod.fst).contains k then m.map Prod.fst else m.map Prod.fst ++ [k] := by
  unfold dictInsert
  split
  · rw [List.map_map]
    apply List.map_congr_left
    intro a _
    by_cases hak : a.1 = k
    · simp [hak]
    · simp [hak]
  · simp

/-- `FieldTracker.add_field_value` (`state/field_tracker.py`): builds a
`FieldValue` and overwrites any existing entry under the same field name,
then stamps the case's `updated_at`. -/
def add_field_value (c : Case) (field_name value source_message_id : String)
    (confidence : Rat) (now : Nat) : Case :=
  { c with
    received_fields := dictInsert c.received_fields field_name
      { field_name := field_name, value := value, received_at := now,
        source_message_id := source_message_id, confidence := confidence },
    updated_at := now }

/-- Claim C9: adding the same field name twice with different values leaves
exactly one entry under that name, holding the second value; entries under
every other name are untouched. -/
theorem add_field_value_last_write_wins (c : Case) (n v₁ v₂ s₁ s₂ : String)
    (q₁ q₂ : Rat) (t₁ t₂ : Nat)
    (hnd : (c.received_fields.map Prod.fst).Nodup) (hv : v₁ ≠ v₂) :
    (((add_field_value (add_field_value c n v₁ s₁ q₁ t₁) n v₂ s₂ q₂ t₂).received_fields.filter
        (fun p => p.1 == n)).length = 1) ∧
    (dictGet (add_field_value (add_field_value c n v₁ s₁ q₁ t₁) n v₂ s₂ q₂ t₂).received_fields n =
      some { field_name := n, value := v₂, received_at := t₂,
             source_message_id := s₂, confidence := q₂ }) ∧
    (∀ k, k ≠ n →
      dictGet (add_field_value (add_field_value c n v₁ s₁ q₁ t₁) n v₂ s₂ q₂ t₂).received_fields k =
        dictGet c.received_fields k) := by
  set fv₁ : FieldValue :=
    { field_name := n, value := v₁, received_at := t₁, source_message_id := s₁, confidence := q₁ }
  set fv₂ : FieldValue :=
    { field_name := n, value := v₂, received_at := t₂, source_message_id := s₂, confidence := q₂ }
  have hfields : (add_field_value (add_field_value c n v₁ s₁ q₁ t₁) n v₂ s₂ q₂ t₂).received_fields
      = dictInsert (dictInsert c.received_fields n fv₁) n fv₂ := rfl
  have hmem1 : n ∈ (dictInsert c.received_fields n fv₁).map Prod.fst := by
    rw [keys_dictInsert]
    split
    · rename_i hc
      simpa using hc
    · simp
  have hnd1 : ((dictInsert c.received_fields n fv₁).map Prod.fst).Nodup := by
    rw [keys_dictInsert]
    split
    · exact hnd
    · rename_i hc
      have : n ∉ c.received_fields.map Prod.fst := by simpa using hc
      simp [List.nodup_append, hnd, this]
  have hbranch : dictInsert (dictInsert c.received_fields n fv₁) n fv₂ =
      (dictInsert c.received_fields n fv₁).map (fun p => if p.1 = n then (n, fv₂) else p) := by
    unfold dictInsert
    rw [if_pos (by simpa using hmem1)]
  refine ⟨?_, ?_, ?_⟩
  · rw [hfields, hbranch]
    exact filter_replace_length _ n fv₂ hnd1 hmem1
  · rw [hfields, hbranch]
    simp [dictGet, find_replace _ n fv₂ hmem1]
  · intro k hk
    rw [hfields, hbranch]
    unfold dictGet
    rw [find_replace_ne _ n fv₂ k hk]
    unfold dictInsert
    split
    · rw [find_replace_ne _ n fv₁ k hk]
    · rw [List.find?_append]
      have : ((n, fv₁) :: []).find? (fun p => p.1 == k) = none := by
        simp [Ne.symm hk]
      simp [this]

/-- Concrete instance for C9: one pre-existing field, then two writes to a
second field name. -/
def c9Case : Case :=
  { id := "c9", client_name := "D", case_title := "T", case_type := CaseType.loa,
    status := CaseStatus.in_progress,
    received_fields := [("plan_number",
      { field_name := "plan_number", value := "PN1",
        received_at := 1, source_message_id := "m0" })] }

theorem add_field_value_last_write_wins_witness :
    (((add_field_value (add_field_value c9Case "dob" "1970" "m1" 1 2)
        "dob" "1980" "m2" 1 3).received_fields.filter (fun p => p.1 == "dob")).length = 1) ∧
    (dictGet (add_field_value (add_field_value c9Case "dob" "1970" "m1" 1 2)
        "dob" "1980" "m2" 1 3).received_fields "dob" =
      some { field_name := "dob", value := "1980", received_at := 3,
             source_message_id := "m2", confidence := 1 }) ∧
    dictGet (add_field_value (add_field_value c9Case "dob" "1970" "m1" 1 2)
        "dob" "1980" "m2" 1 3).received_fields "plan_number" =
      dictGet c9Case.received_fields "plan_number" := by
  have h := add_field_value_last_write_wins c9Case "dob" "1970" "1980" "m1" "m2" 1 1 2 3
    (by decide) (by decide)
  exact ⟨h.1, h.2.1, h.2.2 "plan_number" (by decide)⟩

/-- Lookup in the in-memory model of the Firestore `cases` collection
(documents are keyed by the case's own id). -/
def getCaseList (cs : List Case) (cid : String) : Option Case :=
  cs.find? (fun c => c.id == cid)

/-- `CaseRepository.get_case` (`storage/case_repository.py`): a missing
document raises `CaseNotFoundError`. -/
def get_case (cs : List Case) (cid : String) : Except DomainError Case :=
  match getCaseList cs cid with
  | some c => .ok c
  | none => .error (.case_not_found ("Case not found: " ++ cid))

/-- Firestore `document(case.id).set(case_dict)`: replace or append. -/
def putCase (cs : List Case) (c : Case) : List Case :=
  if cs.any (fun d => d.id == c.id) then cs.map (fun d => if d.id == c.id then c else d)
  else cs ++ [c]

/-- The case as persisted by `update_case`: `updated_at` stamped. -/
def persisted (c : Case) (now : Nat) : Case :=
  { c with updated_at := now }

/-- `CaseRepository.update_case`: verifies existence via `get_case` (any
failure is wrapped into a `StorageError`), stamps `updated_at`, stores. -/
def update_case (cs : List Case) (c : Case) (now : Nat) :
    Except DomainError (List Case × Case) :=
  match get_case cs c.id with
  | .error e => .error (.storage ("Failed to update case: " ++ e.message))
  | .ok _ => .ok (putCase cs (persisted c now), persisted c now)

/-- The in-memory case after `add_field_to_case` writes the new field value
under its name and stamps `updated_at`. -/
def caseWithField (c : Case) (fv : FieldValue) (now : Nat) : Case :=
  { c with
    received_fields := dictInsert c.received_fields fv.field_name fv,
    updated_at := now }

/-- Marking a case COMPLETE with a completion timestamp, as done inline by
`CaseRepository.add_field_to_case`. -/
def completeStamp (c : Case) (now : Nat) : Case :=
  { c with status := CaseStatus.complete, completed_at := some now }

/-- `CaseRepository.add_field_to_case` (`storage/case_repository.py`): loads
the case, writes the field into `received_fields`, and — when this makes the
case complete and it is not already COMPLETE — sets the status to COMPLETE
and stamps `completed_at` directly, without consulting the state machine. -/
def add_field_to_case (cs : List Case) (cid : String) (fv : FieldValue) (now : Nat) :
    Except DomainError (List Case × Case) := do
  let c ← get_case cs cid
  let c1 : Case := caseWithField c fv now
  let c2 : Case := if c1.is_complete ∧ c1.status ≠ CaseStatus.complete
    then completeStamp c1 now else c1
  update_case cs c2 now

/-- Claim C10: whenever the added field makes the case complete and its status
is not already COMPLETE, `add_field_to_case` assigns status COMPLETE and a
completion timestamp directly, for every current status — even OPEN and
CANCELLED, from which the transition table forbids entering COMPLETE. -/
theorem add_field_to_case_bypasses_state_machine (cs : List Case) (cid : String)
    (fv : FieldValue) (now : Nat) (c : Case)
    (hget : getCaseList cs cid = some c) (hid : c.id = cid)
    (hstat : c.status ≠ CaseStatus.complete)
    (hcomp : (caseWithField c fv now).is_complete = true) :
    (∃ cs' c', add_field_to_case cs cid fv now = Except.ok (cs', c') ∧
      c'.status = CaseStatus.complete ∧ c'.completed_at = some now) ∧
    can_transition CaseStatus.open_ CaseStatus.complete = false ∧
    can_transition CaseStatus.cancelled CaseStatus.complete = false := by
  refine ⟨?_, by decide, by decide⟩
  have hgc : get_case cs cid = Except.ok c := by
    simp [get_case, hget]
  have hif : (caseWithField c fv now).is_complete = true ∧
      (caseWithField c fv now).status ≠ CaseStatus.complete := ⟨hcomp, hstat⟩
  have hrun : add_field_to_case cs cid fv now =
      update_case cs (completeStamp (caseWithField c fv now) now) now := by
    unfold add_field_to_case
    rw [hgc]
    show update_case cs
      (if (caseWithField c fv now).is_complete = true ∧
          (caseWithField c fv now).status ≠ CaseStatus.complete
        then completeStamp (caseWithField c fv now) now else caseWithField c fv now) now = _
    rw [if_pos hif]
  have hupd : update_case cs (completeStamp (caseWithField c fv now) now) now =
      Except.ok (putCase cs (persisted (completeStamp (caseWithField c fv now) now) now),
        persisted (completeStamp (caseWithField c fv now) now) now) := by
    unfold update_case
    rw [show get_case cs (completeStamp (caseWithField c fv now) now).id = Except.ok c from by
      show get_case cs c.id = Except.ok c
      rw [hid]
      exact hgc]
  exact ⟨_, _, hrun.trans hupd, rfl, rfl⟩

/-- Concrete instance for C10: a CANCELLED LoA case becomes COMPLETE when its
last required field arrives. -/
def c10Case : Case :=
  { id := "c10", client_name := "E", case_title := "T", case_type := CaseType.loa,
    status := CaseStatus.cancelled, required_fields := ["dob"] }

theorem add_field_to_case_bypasses_state_machine_witness :
    (∃ cs' c', add_field_to_case [c10Case] "c10"
        { field_name := "dob", value := "1980", received_at := 4, source_message_id := "m3" } 4 =
        Except.ok (cs', c') ∧
      c'.status = CaseStatus.complete ∧ c'.completed_at = some 4) ∧
    can_transition CaseStatus.open_ CaseStatus.complete = false ∧
    can_transition CaseStatus.cancelled CaseStatus.complete = false :=
  add_field_to_case_bypasses_state_machine [c10Case] "c10"
    { field_name := "dob", value := "1980", received_at := 4, source_message_id := "m3" } 4
    c10Case (by decide) rfl (by decide) (by decide)

/-- `core/models.py`, `EmailContent` (fields used by the pipeline). -/
structure EmailContent where
  from_address : String
  to_address : String
  subject : String
  body : String
deriving DecidableEq, Repr

/-- `core/models.py`, `TeamsChatMessage`. -/
structure TeamsChatMessage where
  author : String
  text : String
deriving DecidableEq, Repr

/-- `core/models.py`, `TeamsContent`. -/
structure TeamsContent where
  chat_messages : List TeamsChatMessage
deriving DecidableEq, Repr

/-- `core/models.py`, `TranscriptTurn`. -/
structure TranscriptTurn where
  speaker : String
  text : String
deriving DecidableEq, Repr

/-- `core/models.py`, `TranscriptContent`. -/
structure TranscriptContent where
  transcript_turns : List TranscriptTurn
deriving DecidableEq, Repr

/-- `core/models.py`, `DocumentContent`. -/
structure DocumentContent where
  document_title : String
  document_text : String
deriving DecidableEq, Repr

/-- The `MessageContent` union of `core/models.py`. -/
inductive MessageContent
  | email (e : EmailContent)
  | teams (t : TeamsContent)
  | transcript (t : TranscriptContent)
  | document (d : DocumentContent)
deriving DecidableEq, Repr

/-- `core/models.py`, `Message` (the fields the pipeline reads). -/
structure Message where
  id : String
  timestamp : Nat := 0
  content : MessageContent
deriving DecidableEq, Repr

/-- `Message.get_text_content` (`core/models.py`). -/
def Message.get_text_content (m : Message) : String :=
  match m.content with
  | .email e => e.subject ++ "\n" ++ e.body
  | .teams t =>
    String.intercalate "\n" (t.chat_messages.map (fun cm => cm.author ++ ": " ++ cm.text))
  | .transcript t =>
    String.intercalate "\n" (t.transcript_turns.map (fun tt => tt.speaker ++ ": " ++ tt.text))
  | .document d => d.document_title ++ "\n" ++ d.document_text

/-- Python's `needle in hay` substring test, on character lists. -/
def hasSub (needle : List Char) : List Char → Bool
  | [] => needle.isEmpty
  | c :: t => needle.isPrefixOf (c :: t) || hasSub needle t

/-- Python's `kw in text` on strings. -/
def strContains (text kw : String) : Bool :=
  hasSub kw.toList text.toList

/-- Python's `str.lower()`.  (Stated over the character list so that it
computes by kernel reduction; it agrees with the byte-position based library
lowercasing on every string.) -/
def toLowerStr (s : String) : String :=
  ⟨s.data.map Char.toLower⟩

/-- ASCII whitespace, as stripped by Python's `str.strip()`. -/
def isSpaceChar (c : Char) : Bool :=
  c = ' ' ∨ c = '\t' ∨ c = '\n' ∨ c = '\r'

/-- Python's `str.strip()`, over the character list. -/
def trimStr (s : String) : String :=
  ⟨((s.data.dropWhile isSpaceChar).reverse.dropWhile isSpaceChar).reverse⟩

/-- Python's `s[:n]` slice, over the character list. -/
def takeStr (s : String) (n : Nat) : String :=
  ⟨s.data.take n⟩

/-- `PreFilter.SPAM_KEYWORDS` (`pipeline/pre_filter.py`). -/
def SPAM_KEYWORDS : List String :=
  ["unsubscribe", "newsletter", "marketing", "promotion",
   "discount", "sale", "offer", "click here", "buy now"]

/-- `PreFilter.RELEVANT_KEYWORDS` (`pipeline/pre_filter.py`). -/
def RELEVANT_KEYWORDS : List String :=
  ["loa", "letter of authority", "policy", "plan number",
   "valuation", "pension", "investment", "platform",
   "client", "case", "annual review", "dob", "date of birth",
   "ni number", "national insurance"]

/-- `PreFilter.SPAM_DOMAINS` (`pipeline/pre_filter.py`). -/
def SPAM_DOMAINS : List String :=
  ["newsletter.com", "marketing.com", "randomcorp.com"]

/-- `PreFilter.WHITELIST_DOMAINS` (`pipeline/pre_filter.py`). -/
def WHITELIST_DOMAINS : List String :=
  ["firm.com", "example.com", "abcplatform.com"]

/-- `pipeline/pre_filter.py`, `PreFilter`: configured keyword and domain sets
(Python stores them as sets; list membership below only ever tests
containment and threshold counts over distinct elements). -/
structure PreFilter where
  spam_keywords : List String := SPAM_KEYWORDS
  relevant_keywords : List String := RELEVANT_KEYWORDS
  spam_domains : List String := SPAM_DOMAINS
  whitelist_domains : List String := WHITELIST_DOMAINS

/-- Default-configured pre-filter (`PreFilter()` with no arguments). -/
def defaultPreFilter : PreFilter := {}

/-- `sum(1 for keyword in self.spam_keywords if keyword in text)`. -/
def spam_score (pf : PreFilter) (text : String) : Nat :=
  (pf.spam_keywords.filter (fun k => strContains text k)).length

/-- `sum(1 for keyword in self.relevant_keywords if keyword in text)`. -/
def relevant_score (pf : PreFilter) (text : String) : Nat :=
  (pf.relevant_keywords.filter (fun k => strContains text k)).length

/-- `hasattr(message.content, "from_address")`: only email content has one. -/
def senderAddress (m : Message) : Option String :=
  match m.content with
  | .email e => some e.from_address
  | _ => none

/-- Steps 3-5 of `PreFilter.should_process`: the spam-keyword threshold, the
relevant-keyword threshold, then the process-by-default fallback. -/
def keyword_gate (pf : PreFilter) (text : String) : Bool :=
  if spam_score pf text ≥ 2 then false
  else if relevant_score pf text ≥ 1 then true
  else true

/-- `PreFilter.should_process` (`pipeline/pre_filter.py`): whitelist, then
blacklist (emails only), then the keyword thresholds on the lowercased text. -/
def should_process (pf : PreFilter) (m : Message) : Bool :=
  let text := toLowerStr m.get_text_content
  match senderAddress m with
  | some addr0 =>
    let addr := toLowerStr addr0
    if pf.whitelist_domains.any (fun d => strContains addr d) then true
    else if pf.spam_domains.any (fun d => strContains addr d) then false
    else keyword_gate pf text
  | none => keyword_gate pf text

/-- Outcome of the domain rules alone: `some true` whitelisted, `some false`
blacklisted, `none` when neither rule fires (including non-email content). -/
def domain_verdict (pf : PreFilter) (m : Message) : Option Bool :=
  match senderAddress m with
  | none => none
  | some addr0 =>
    let addr := toLowerStr addr0
    if pf.whitelist_domains.any (fun d => strContains addr d) then some true
    else if pf.spam_domains.any (fun d => strContains addr d) then some false
    else none

theorem keyword_gate_high_spam (pf : PreFilter) (text : String)
    (h : spam_score pf text ≥ 2) : keyword_gate pf text = false := by
  simp [keyword_gate, h]

theorem keyword_gate_low_spam (pf : PreFilter) (text : String)
    (h : spam_score pf text < 2) : keyword_gate pf text = true := by
  have h' : ¬ spam_score pf text ≥ 2 := by omega
  unfold keyword_gate
  rw [if_neg h']
  split <;> rfl

theorem should_process_eq_gate (pf : PreFilter) (m : Message)
    (h : domain_verdict pf m = none) :
    should_process pf m = keyword_gate pf (toLowerStr m.get_text_content) := by
  unfold should_process
  unfold domain_verdict at h
  cases hs : senderAddress m with
  | none => rfl
  | some addr0 =>
    rw [hs] at h
    simp only at h
    by_cases hw : pf.whitelist_domains.any (fun d => strContains (toLowerStr addr0) d) = true
    · rw [if_pos hw] at h
      exact absurd h (by simp)
    · rw [if_neg hw] at h
      by_cases hb : pf.spam_domains.any (fun d => strContains (toLowerStr addr0) d) = true
      · rw [if_pos hb] at h
        exact absurd h (by simp)
      · simp only [Bool.not_eq_true] at hw hb
        simp [hw, hb]

/-- Claim C7: `should_process` is deterministic over the sender address and
text content, and applies its rules in order, first match winning: a
whitelisted sender is processed even with 3+ spam keywords; with no domain
rule firing, 2+ spam keywords and no relevant keyword reject; exactly 1 spam
keyword together with a relevant keyword processes; and a message matching no
rule processes by default. -/
theorem should_process_rules (pf : PreFilter) (m m' : Message) :
    (senderAddress m = senderAddress m' →
      m.get_text_content = m'.get_text_content →
      should_process pf m = should_process pf m') ∧
    (∀ e, m.content = MessageContent.email e →
      pf.whitelist_domains.any (fun d => strContains (toLowerStr e.from_address) d) = true →
      spam_score pf (toLowerStr m.get_text_content) ≥ 3 →
      should_process pf m = true) ∧
    (domain_verdict pf m = none →
      spam_score pf (toLowerStr m.get_text_content) ≥ 2 →
      relevant_score pf (toLowerStr m.get_text_content) = 0 →
      should_process pf m = false) ∧
    (domain_verdict pf m = none →
      spam_score pf (toLowerStr m.get_text_content) = 1 →
      relevant_score pf (toLowerStr m.get_text_content) ≥ 1 →
      should_process pf m = true) ∧
    (domain_verdict pf m = none →
      spam_score pf (toLowerStr m.get_text_content) < 2 →
      relevant_score pf (toLowerStr m.get_text_content) = 0 →
      should_process pf m = true) := by
  refine ⟨?_, ?_, ?_, ?_, ?_⟩
  · intro h1 h2
    unfold should_process
    rw [h1, h2]
  · intro e hc hw _
    have hs : senderAddress m = some e.from_address := by
      simp [senderAddress, hc]
    unfold should_process
    rw [hs]
    simp [hw]
  · intro hd hspam _
    rw [should_process_eq_gate pf m hd]
    exact keyword_gate_high_spam pf _ hspam
  · intro hd hspam _
    rw [should_process_eq_gate pf m hd]
    exact keyword_gate_low_spam pf _ (by omega)
  · intro hd hspam _
    rw [should_process_eq_gate pf m hd]
    exact keyword_gate_low_spam pf _ hspam

/-- Whitelisted sender whose text holds three spam keywords. -/
def c7SpamFromFirm : Message :=
  { id := "m-c7a",
    content := MessageContent.email
      { from_address := "bob@firm.com", to_address := "us@x.com",
        subject := "sale offer", body := "unsubscribe newsletter marketing discount" } }

/-- Unknown sender, two spam keywords, no relevant keyword. -/
def c7TwoSpam : Message :=
  { id := "m-c7b",
    content := MessageContent.email
      { from_address := "bob@randomdomain.org", to_address := "us@x.com",
        subject := "hi", body := "unsubscribe from this newsletter now" } }

/-- Unknown sender, one spam keyword and one relevant keyword. -/
def c7Mixed : Message :=
  { id := "m-c7c",
    content := MessageContent.email
      { from_address := "bob@otherdomain.org", to_address := "us@x.com",
        subject := "hi", body := "please unsubscribe the client" } }

theorem should_process_rules_witness :
    should_process defaultPreFilter c7SpamFromFirm = true ∧
    should_process defaultPreFilter c7TwoSpam = false ∧
    should_process defaultPreFilter c7Mixed = true :=
  ⟨(should_process_rules defaultPreFilter c7SpamFromFirm c7SpamFromFirm).2.1 _ rfl
      (by decide) (by decide),
   (should_process_rules defaultPreFilter c7TwoSpam c7TwoSpam).2.2.1
      (by decide) (by decide) (by decide),
   (should_process_rules defaultPreFilter c7Mixed c7Mixed).2.2.2.1
      (by decide) (by decide) (by decide)⟩

/-- `core/models.py`, `Classification`.  Note the model-level default
`is_relevant := true`, independent of the category. -/
structure Classification where
  category : MessageCategory
  confidence : Rat
  reasoning : String
  is_relevant : Bool := true
deriving DecidableEq, Repr

/-- `Classification.should_process` (`core/models.py`). -/
def Classification.should_process (c : Classification) : Bool :=
  c.is_relevant && ! decide (c.category = MessageCategory.irrelevant)

/-- The Python enum value string of a `MessageCategory`. -/
def MessageCategory.value : MessageCategory → String
  | .client_task => "CLIENT_TASK"
  | .loa_chase => "LOA_CHASE"
  | .loa_missing_info => "LOA_MISSING_INFO"
  | .loa_response => "LOA_RESPONSE"
  | .admin => "ADMIN"
  | .irrelevant => "IRRELEVANT"

/-- `.upper().replace("-", "_").replace(" ", "_")` as applied to the raw
category string in `LLMService.classify_message` and `_safe_category`. -/
def normalizeCategoryString (s : String) : String :=
  ⟨s.data.map (fun c => if c = '-' ∨ c = ' ' then '_' else c.toUpper)⟩

/-- `LLMService._safe_category` (`llm/service.py`): normalization, synonym
folding, then the closed category mapping. -/
def safe_category (value : String) : Option MessageCategory :=
  let v0 := normalizeCategoryString value
  let v := if v0 = "MISSING_INFO" then "LOA_MISSING_INFO"
    else if v0 = "CHASE" then "LOA_CHASE"
    else if v0 = "RESPONSE" then "LOA_RESPONSE"
    else v0
  if v = "CLIENT_TASK" then some .client_task
  else if v = "LOA_CHASE" then some .loa_chase
  else if v = "LOA_MISSING_INFO" then some .loa_missing_info
  else if v = "LOA_RESPONSE" then some .loa_response
  else if v = "ADMIN" then some .admin
  else if v = "IRRELEVANT" then some .irrelevant
  else none

/-- `LLMService._clamp_float` (`llm/service.py`); `none` models a value
`float()` rejects. -/
def clamp_float (value : Option Rat) (default : Rat) : Rat :=
  match value with
  | none => default
  | some f => if f < 0 then 0 else if f > 1 then 1 else f

/-- The fields of the first JSON object parsed out of the LLM response, as
read by `LLMService.classify_message`; `none` models an absent or null key. -/
structure ParsedClassification where
  category : Option String := none
  confidence : Option Rat := none
  reasoning : Option String := none
  is_relevant : Option Bool := none

/-- `str(parsed.get("reasoning") or "No reasoning provided").strip()[:200]`. -/
def parsedReasoning (p : ParsedClassification) : String :=
  takeStr (trimStr (match p.reasoning with
    | some r => if r = "" then "No reasoning provided" else r
    | none => "No reasoning provided")) 200

/-- Lines 86-103 of `llm/service.py`: build a `Classification` from a parsed
JSON object; `none` when the category is not recognised (in which case the
caller falls back to the heuristic).  Relevance is normalized to `false`
whenever the category is IRRELEVANT or ADMIN. -/
def classification_from_parsed (p : ParsedClassification) : Option Classification :=
  match safe_category (p.category.getD "") with
  | none => none
  | some category =>
    some
      { category := category,
        confidence := clamp_float p.confidence (6 / 10),
        reasoning := parsedReasoning p,
        is_relevant := if category = MessageCategory.irrelevant ∨
            category = MessageCategory.admin then false else p.is_relevant.getD false }

/-- `any(k in lower for k in [...])` over the lowercased text. -/
def keywordHit (text : String) (ks : List String) : Bool :=
  ks.any (fun k => strContains (toLowerStr text) k)

/-- `LLMService._heuristic_classification` (`llm/service.py`). -/
def heuristic_classification (text : String) (fallback_reason : String) : Classification :=
  if keywordHit text ["unsubscribe", "out of office", "newsletter", "meeting", "invoice",
      "billing"] then
    { category := .admin, confidence := 1 / 2, reasoning := fallback_reason,
      is_relevant := false }
  else if keywordHit text ["missing", "provide", "required", "need more",
      "can\x27t process", "insufficient"] then
    { category := .loa_missing_info, confidence := 3 / 5, reasoning := fallback_reason,
      is_relevant := true }
  else if keywordHit text ["attached", "signed loa", "authorised", "policy", "plan number",
      "dob", "ni number", "national insurance"] then
    { category := .loa_response, confidence := 3 / 5, reasoning := fallback_reason,
      is_relevant := true }
  else if keywordHit text ["follow up", "chase", "status", "update on", "when can",
      "awaiting"] then
    { category := .loa_chase, confidence := 3 / 5, reasoning := fallback_reason,
      is_relevant := true }
  else if keywordHit text ["open a case", "create case", "start loa", "onboard",
      "annual review", "task"] then
    { category := .client_task, confidence := 3 / 5, reasoning := fallback_reason,
      is_relevant := true }
  else
    { category := .irrelevant, confidence := 1 / 2, reasoning := fallback_reason,
      is_relevant := false }

/-- The observable outcome of the LLM call plus JSON parsing inside
`LLMService.classify_message`: the call raised, the response was empty or not
parseable as a JSON object, or it yielded a parsed object. -/
inductive LLMClassifyOutcome
  | raised (e : String)
  | unparsed
  | parsed (p : ParsedClassification)

/-- `LLMService.classify_message` (`llm/service.py`), with the external LLM
call abstracted into its observable outcome. -/
def classify_message (outcome : LLMClassifyOutcome) (m : Message) : Classification :=
  if trimStr m.get_text_content = "" then
    { category := .irrelevant, confidence := 1,
      reasoning := "Empty message content", is_relevant := false }
  else
    match outcome with
    | .raised e => heuristic_classification (trimStr m.get_text_content) ("LLM error: " ++ e)
    | .unparsed => heuristic_classification (trimStr m.get_text_content)
        "Unable to parse LLM response"
    | .parsed p =>
      match classification_from_parsed p with
      | some c => c
      | none => heuristic_classification (trimStr m.get_text_content)
          "Unable to parse LLM response"

/-- `MockLLMService.classify_message` (`llm/mock_service.py`): the argument is
the message's `expected_category` metadata entry (when present and a valid
category value).  Relevance is computed as `category != IRRELEVANT`. -/
def mock_classify (expected_category : Option MessageCategory) : Classification :=
  match expected_category with
  | some category =>
    { category := category, confidence := 1,
      reasoning := "Mock classification: Message categorized as " ++ category.value,
      is_relevant := ! decide (category = MessageCategory.irrelevant) }
  | none =>
    { category := .irrelevant, confidence := 1 / 2,
      reasoning := "Mock classification: No expected category in metadata",
      is_relevant := false }

/-- The classification synthesized by `PipelineOrchestrator.process_message`
for a message rejected by the pre-filter. -/
def prefilterClassification : Classification :=
  { category := .irrelevant, confidence := 1,
    reasoning := "Filtered out by pre-filter (spam/marketing)", is_relevant := false }

theorem heuristic_cases (text reason : String) :
    heuristic_classification text reason =
        { category := .admin, confidence := 1 / 2, reasoning := reason,
          is_relevant := false } ∨
    heuristic_classification text reason =
        { category := .loa_missing_info, confidence := 3 / 5, reasoning := reason,
          is_relevant := true } ∨
    heuristic_classification text reason =
        { category := .loa_response, confidence := 3 / 5, reasoning := reason,
          is_relevant := true } ∨
    heuristic_classification text reason =
        { category := .loa_chase, confidence := 3 / 5, reasoning := reason,
          is_relevant := true } ∨
    heuristic_classification text reason =
        { category := .client_task, confidence := 3 / 5, reasoning := reason,
          is_relevant := true } ∨
    heuristic_classification text reason =
        { category := .irrelevant, confidence := 1 / 2, reasoning := reason,
          is_relevant := false } := by
  unfold heuristic_classification
  repeat' split
  · exact Or.inl rfl
  · exact Or.inr (Or.inl rfl)
  · exact Or.inr (Or.inr (Or.inl rfl))
  · exact Or.inr (Or.inr (Or.inr (Or.inl rfl)))
  · exact Or.inr (Or.inr (Or.inr (Or.inr (Or.inl rfl))))
  · exact Or.inr (Or.inr (Or.inr (Or.inr (Or.inr rfl))))

theorem heuristic_relevance (text reason : String) :
    ((heuristic_classification text reason).category = MessageCategory.admin ∨
      (heuristic_classification text reason).category = MessageCategory.irrelevant) →
    (heuristic_classification text reason).is_relevant = false := by
  intro h
  rcases heuristic_cases text reason with hc | hc | hc | hc | hc | hc <;>
    rw [hc] at h ⊢ <;> simp_all

theorem parsed_relevance (p : ParsedClassification) (cl : Classification)
    (hp : classification_from_parsed p = some cl) :
    (cl.category = MessageCategory.admin ∨ cl.category = MessageCategory.irrelevant) →
    cl.is_relevant = false := by
  unfold classification_from_parsed at hp
  rcases hsc : safe_category (p.category.getD "") with _ | cat
  · rw [hsc] at hp
    exact absurd hp (by simp)
  · rw [hsc] at hp
    simp only [Option.some.injEq] at hp
    subst hp
    intro h
    simp only at h ⊢
    rcases h with h | h
    · rw [if_pos (Or.inr h)]
    · rw [if_pos (Or.inl h)]

/-- Claim C4 counterexample: `MockLLMService.classify_message` on a message
whose metadata expects category ADMIN produces a `Classification` with
category ADMIN and `is_relevant = true`, violating the claimed system-wide
derived rule. -/
theorem mock_admin_relevance_counterexample :
    (mock_classify (some MessageCategory.admin)).category = MessageCategory.admin ∧
    (mock_classify (some MessageCategory.admin)).is_relevant = true := by
  exact ⟨rfl, rfl⟩

/-- Claim C4 (amended): every `Classification` produced by
`LLMService.classify_message` — over any LLM outcome: the empty-text path, the
parsed-JSON path, the heuristic fallback — and the orchestrator's pre-filter
synthesis has `is_relevant = false` whenever its category is ADMIN or
IRRELEVANT; the mock service and direct construction are exempt. -/
theorem classify_message_relevance_normalized (outcome : LLMClassifyOutcome) (m : Message) :
    (((classify_message outcome m).category = MessageCategory.admin ∨
        (classify_message outcome m).category = MessageCategory.irrelevant) →
      (classify_message outcome m).is_relevant = false) ∧
    ((prefilterClassification.category = MessageCategory.admin ∨
        prefilterClassification.category = MessageCategory.irrelevant) →
      prefilterClassification.is_relevant = false) := by
  refine ⟨?_, fun _ => rfl⟩
  unfold classify_message
  by_cases ht : trimStr m.get_text_content = ""
  · rw [if_pos ht]
    intro _
    rfl
  · rw [if_neg ht]
    cases outcome with
    | raised e => exact heuristic_relevance _ _
    | unparsed => exact heuristic_relevance _ _
    | parsed p =>
      dsimp only
      cases hp : classification_from_parsed p with
      | none =>
        dsimp only
        exact heuristic_relevance _ _
      | some cl =>
        dsimp only
        exact parsed_relevance p cl hp

/-- A nonempty message whose LLM response parses to category ADMIN with
`is_relevant` set true: the normalization still forces relevance false. -/
def c4Message : Message :=
  { id := "m-c4",
    content := MessageContent.email
      { from_address := "x@y.com", to_address := "us@x.com",
        subject := "meeting", body := "see invite" } }

theorem classify_message_relevance_normalized_witness :
    (classify_message (LLMClassifyOutcome.parsed
        { category := some "ADMIN", is_relevant := some true }) c4Message).is_relevant = false :=
  (classify_message_relevance_normalized (LLMClassifyOutcome.parsed
      { category := some "ADMIN", is_relevant := some true }) c4Message).1
    (Or.inl (by decide))

/-- `core/models.py`, `Task` (the fields the handlers read and write). -/
structure Task where
  id : String
  case_id : Option String := none
  title : String
  description : String
  status : CaseStatus := .open_
  created_at : Nat := 0
  updated_at : Nat := 0
  completed_at : Option Nat := none
deriving DecidableEq, Repr

/-- The `Action.parameters` mapping, restricted to the keys the handlers read;
`none` models an absent key. -/
structure ActionParams where
  client_name : Option String := none
  case_title : Option String := none
  case_type : Option String := none
  required_fields : Option (List String) := none
  notes : Option String := none
  field_updates : List (String × String) := []
  missing_fields : Option (List String) := none
  task_title : Option String := none
  task_description : Option String := none
deriving DecidableEq, Repr

/-- `core/models.py`, `Action` (the fields the router and handlers read). -/
structure Action where
  id : String
  type : ActionType
  case_id : Option String := none
  parameters : ActionParams := {}
  triggered_by : String
  success : Option Bool := none
deriving DecidableEq, Repr

/-- The before/after-state snapshots the handlers pass to `log_action`
(`model_dump()` dicts and the two literal dicts in `followup_actions.py`). -/
inductive StateDump
  | empty
  | caseDump (c : Case)
  | taskDump (t : Task)
  | noActionNeeded
  | emailDrafted (missing_fields : List String)
  | chaseInfo (case_id case_title client_name : String)
      (missing_fields : List String) (initiated_at : Nat)
deriving DecidableEq, Repr

/-- `action.case_id or "unknown"` (Python falsiness: `None` and `""`). -/
def auditCaseId (cid : Option String) : String :=
  match cid with
  | none => "unknown"
  | some s => if s = "" then "unknown" else s

/-- `core/models.py`, `AuditLog` (the fields `ActionHandler.log_action`
writes). -/
structure AuditLog where
  timestamp : Nat
  case_id : String
  action_type : ActionType
  before_state : StateDump
  after_state : StateDump
  triggered_by : String
  success : Bool
  error_message : Option String := none
deriving DecidableEq, Repr

/-- The audit entry built by `ActionHandler.log_action` (`actions/base.py`). -/
def mkAudit (cid : Option String) (ty : ActionType) (before after : StateDump)
    (triggered : String) (success : Bool) (err : Option String) (now : Nat) : AuditLog :=
  { timestamp := now, case_id := auditCaseId cid, action_type := ty,
    before_state := before, after_state := after, triggered_by := triggered,
    success := success, error_message := err }

/-- In-memory model of the Firestore collections the handlers touch. -/
structure Store where
  cases : List Case := []
  tasks : List Task := []
  audits : List AuditLog := []
deriving DecidableEq, Repr

/-- Successful handler-body outcome: the updated collections, the action's
case id at audit time, and the before/after snapshots for the audit entry. -/
structure HandlerOk where
  cases : List Case
  tasks : List Task
  audit_case_id : Option String
  before : StateDump
  after : StateDump

/-- The shared try/except pattern of every handler method (`actions/*.py`):
success appends one success audit entry; an exception appends one failure
entry with empty snapshots and `str(e)`, then re-raises the error as an
`ActionExecutionError` with the handler's message prefix. -/
def finish (st : Store) (a : Action) (errPrefix : String) (now : Nat)
    (body : Except String HandlerOk) : Store × Except DomainError Bool :=
  match body with
  | .ok r =>
    ({ cases := r.cases, tasks := r.tasks,
       audits := st.audits ++
         [mkAudit r.audit_case_id a.type r.before r.after a.triggered_by true none now] },
     .ok true)
  | .error e =>
    ({ st with audits := st.audits ++
         [mkAudit a.case_id a.type StateDump.empty StateDump.empty a.triggered_by false
           (some e) now] },
     .error (.action_execution (errPrefix ++ e)))

/-- `if not action.case_id: raise ActionExecutionError(msg)`. -/
def requireCaseId (a : Action) (msg : String) : Except String String :=
  match a.case_id with
  | none => .error msg
  | some cid => if cid = "" then .error msg else .ok cid

/-- `get_case` as seen from inside a handler body (`str(e)` of the raised
`CaseNotFoundError`). -/
def getCaseE (cs : List Case) (cid : String) : Except String Case :=
  match getCaseList cs cid with
  | some c => .ok c
  | none => .error ("Case not found: " ++ cid)

/-- `CaseStateMachine.transition` as seen from inside a handler body. -/
def transitionE (c : Case) (t : CaseStatus) (now : Nat) : Except String Case :=
  match transition c t true now with
  | .ok c' => .ok c'
  | .error e => .error e.message

/-- `CaseRepository.update_case` as seen from inside a handler body. -/
def update_caseE (cs : List Case) (c : Case) (now : Nat) :
    Except String (List Case × Case) :=
  match update_case cs c now with
  | .ok r => .ok r
  | .error e => .error e.message

/-- `CaseType(case_type_str)`: the Python enum constructor, raising
`ValueError` on an unknown value. -/
def caseTypeOfString (s : String) : Except String CaseType :=
  if s = "loa" then .ok CaseType.loa
  else if s = "general" then .ok CaseType.general
  else if s = "annual_review" then .ok CaseType.annual_review
  else .error ("\x27" ++ s ++ "\x27 is not a valid CaseType")

/-- Python `str.replace(" ", "_")`. -/
def replaceSpaces (s : String) : String :=
  ⟨s.data.map (fun c => if c = ' ' then '_' else c)⟩

/-- Firestore `document(task.id).set(task_dict)` for tasks. -/
def putTask (ts : List Task) (t : Task) : List Task :=
  if ts.any (fun d => d.id == t.id) then ts.map (fun d => if d.id == t.id then t else d)
  else ts ++ [t]

/-- `CaseRepository.find_task_by_title`: first non-complete task with the
title, scoped to the given case id (or to the standalone collection). -/
def findTaskByTitle (ts : List Task) (title : String) (case_id : Option String) :
    Option Task :=
  ts.find? (fun t => t.title == title && ! decide (t.status = CaseStatus.complete)
    && t.case_id == case_id)

/-- `FollowupActionHandler._generate_simple_followup`. -/
def generate_simple_followup (c : Case) (missing_fields : List String) : String :=
  "Dear Provider,\n\nWe are following up on the Letter of Authority for "
    ++ c.client_name ++ ".\n\nWe are still awaiting the following information:\n"
    ++ String.intercalate "\n" (missing_fields.map (fun f => "- " ++ f))
    ++ "\n\nPlease provide these details at your earliest convenience.\n\n"
    ++ "Thank you for your assistance.\n\nBest regards\n"

/-- Body of `CaseActionHandler._create_case` (inside the try block). -/
def create_case_body (st : Store) (a : Action) (now : Nat) : Except String HandlerOk := do
  let ctStr := a.parameters.case_type.getD "general"
  let ct ← if ctStr = "" then Except.ok CaseType.general else caseTypeOfString ctStr
  let cid := "case_" ++ toString now ++ "_"
    ++ replaceSpaces (a.parameters.client_name.getD "unknown")
  let clientName := a.parameters.client_name.getD "Unknown"
  let c : Case :=
    { id := cid, client_name := clientName,
      case_title := a.parameters.case_title.getD ("Case: " ++ clientName),
      case_type := ct, status := CaseStatus.open_,
      required_fields := a.parameters.required_fields.getD [],
      created_at := now, updated_at := now,
      notes := a.parameters.notes.getD "" }
  Except.ok
    { cases := putCase st.cases c, tasks := st.tasks, audit_case_id := some cid,
      before := StateDump.empty, after := StateDump.caseDump c }

/-- Body of `CaseActionHandler._update_case`: field updates in order, then the
advisory auto-transition, then persistence. -/
def update_case_body (st : Store) (a : Action) (now : Nat) : Except String HandlerOk := do
  let cid ← requireCaseId a "Case ID required for UPDATE_CASE action"
  let c ← getCaseE st.cases cid
  let c1 := a.parameters.field_updates.foldl
    (fun acc kv => add_field_value acc kv.1 kv.2 a.triggered_by 1 now) c
  let c2 ← match should_auto_transition c1 with
    | some ns => transitionE c1 ns now
    | none => Except.ok c1
  let r ← update_caseE st.cases c2 now
  Except.ok
    { cases := r.1, tasks := st.tasks, audit_case_id := some cid,
      before := StateDump.caseDump c, after := StateDump.caseDump r.2 }

/-- Body of `CaseActionHandler._complete_case`: forced intermediate hops
through IN_PROGRESS from OPEN and from AWAITING_INFO, then COMPLETE. -/
def complete_case_body (st : Store) (a : Action) (now : Nat) : Except String HandlerOk := do
  let cid ← requireCaseId a "Case ID required for COMPLETE_CASE action"
  let c ← getCaseE st.cases cid
  let c1 ← if c.status = CaseStatus.open_ then transitionE c CaseStatus.in_progress now
    else Except.ok c
  let c2 ← if c1.status = CaseStatus.awaiting_info then
      transitionE c1 CaseStatus.in_progress now
    else Except.ok c1
  let c3 ← transitionE c2 CaseStatus.complete now
  let r ← update_caseE st.cases c3 now
  Except.ok
    { cases := r.1, tasks := st.tasks, audit_case_id := some cid,
      before := StateDump.caseDump c, after := StateDump.caseDump r.2 }

/-- Body of `CaseActionHandler._cancel_case`. -/
def cancel_case_body (st : Store) (a : Action) (now : Nat) : Except String HandlerOk := do
  let cid ← requireCaseId a "Case ID required for CANCEL_CASE action"
  let c ← getCaseE st.cases cid
  let c1 ← transitionE c CaseStatus.cancelled now
  let r ← update_caseE st.cases c1 now
  Except.ok
    { cases := r.1, tasks := st.tasks, audit_case_id := some cid,
      before := StateDump.caseDump c, after := StateDump.caseDump r.2 }

/-- Body of `TaskActionHandler._create_task`. -/
def create_task_body (st : Store) (a : Action) (now : Nat) : Except String HandlerOk := do
  let t : Task :=
    { id := "task_" ++ toString now, case_id := a.case_id,
      title := a.parameters.task_title.getD "Unnamed Task",
      description := a.parameters.task_description.getD "",
      status := CaseStatus.open_, created_at := now, updated_at := now }
  Except.ok
    { cases := st.cases, tasks := putTask st.tasks t, audit_case_id := a.case_id,
      before := StateDump.empty, after := StateDump.taskDump t }

/-- Body of `TaskActionHandler._complete_task`. -/
def complete_task_body (st : Store) (a : Action) (now : Nat) : Except String HandlerOk := do
  let title ← match a.parameters.task_title with
    | none => Except.error "Task title required for COMPLETE_TASK action"
    | some t =>
      if t = "" then Except.error "Task title required for COMPLETE_TASK action"
      else Except.ok t
  let t ← match findTaskByTitle st.tasks title a.case_id with
    | none => Except.error ("Task not found: " ++ title)
    | some t => Except.ok t
  let t1 : Task :=
    { t with status := CaseStatus.complete, completed_at := some now, updated_at := now }
  Except.ok
    { cases := st.cases, tasks := putTask st.tasks t1, audit_case_id := a.case_id,
      before := StateDump.taskDump t, after := StateDump.taskDump t1 }

/-- Body of `FollowupActionHandler._draft_followup_email`; the optional `llm`
oracle models `LLMService.generate_followup_email` (which may raise). -/
def draft_followup_body (llm : Option (Case → List String → Except String String))
    (st : Store) (a : Action) (now : Nat) : Except String HandlerOk := do
  let cid ← requireCaseId a "Case ID required for DRAFT_FOLLOWUP_EMAIL action"
  let c ← getCaseE st.cases cid
  let missing := a.parameters.missing_fields.getD c.get_missing_fields
  if missing = [] then
    Except.ok
      { cases := st.cases, tasks := st.tasks, audit_case_id := some cid,
        before := StateDump.empty, after := StateDump.noActionNeeded }
  else do
    let _email ← match llm with
      | some gen => gen c missing
      | none => Except.ok (generate_simple_followup c missing)
    Except.ok
      { cases := st.cases, tasks := st.tasks, audit_case_id := some cid,
        before := StateDump.empty, after := StateDump.emailDrafted missing }

/-- Body of `FollowupActionHandler._initiate_loa_chase`. -/
def initiate_chase_body (st : Store) (a : Action) (now : Nat) : Except String HandlerOk := do
  let cid ← requireCaseId a "Case ID required for INITIATE_LOA_CHASE action"
  let c ← getCaseE st.cases cid
  Except.ok
    { cases := st.cases, tasks := st.tasks, audit_case_id := some cid,
      before := StateDump.empty,
      after := StateDump.chaseInfo c.id c.case_title c.client_name c.get_missing_fields now }

/-- Dispatch of `ActionRouter` to the handler `execute` methods; `IGNORE`
never reaches a handler (the router short-circuits it without an audit). -/
def execute_action (llm : Option (Case → List String → Except String String))
    (st : Store) (a : Action) (now : Nat) : Store × Except DomainError Bool :=
  match a.type with
  | .create_case => finish st a "Failed to create case: " now (create_case_body st a now)
  | .update_case => finish st a "Failed to update case: " now (update_case_body st a now)
  | .complete_case =>
    finish st a "Failed to complete case: " now (complete_case_body st a now)
  | .cancel_case => finish st a "Failed to cancel case: " now (cancel_case_body st a now)
  | .create_task => finish st a "Failed to create task: " now (create_task_body st a now)
  | .complete_task =>
    finish st a "Failed to complete task: " now (complete_task_body st a now)
  | .draft_followup_email =>
    finish st a "Failed to draft follow-up email: " now (draft_followup_body llm st a now)
  | .initiate_loa_chase =>
    finish st a "Failed to initiate LOA chase: " now (initiate_chase_body st a now)
  | .ignore => (st, .error (.action_execution "Unsupported action type: IGNORE"))

/-- `ActionRouter.route_action` (`actions/router.py`). -/
def route_action (llm : Option (Case → List String → Except String String))
    (st : Store) (a : Action) (now : Nat) : Store × Except DomainError Bool :=
  if a.type = ActionType.ignore then (st, .ok true)
  else execute_action llm st a now

theorem finish_spec (st : Store) (a : Action) (errPrefix : String) (now : Nat)
    (body : Except String HandlerOk) :
    ∃ entry, (finish st a errPrefix now body).1.audits = st.audits ++ [entry] ∧
      ((finish st a errPrefix now body).2 = Except.ok true → entry.success = true) ∧
      (∀ d, (finish st a errPrefix now body).2 = Except.error d →
        ∃ e, (∃ pre, d = DomainError.action_execution (pre ++ e)) ∧
          entry.success = false ∧ entry.before_state = StateDump.empty ∧
          entry.after_state = StateDump.empty ∧ entry.error_message = some e) := by
  cases body with
  | ok r =>
    refine ⟨_, rfl, fun _ => rfl, ?_⟩
    intro d hd
    exact absurd hd (by simp [finish])
  | error e =>
    refine ⟨_, rfl, ?_, ?_⟩
    · intro h
      exact absurd h (by simp [finish])
    · intro d hd
      have hde : d = DomainError.action_execution (errPrefix ++ e) := by
        have h2 : Except.error (DomainError.action_execution (errPrefix ++ e)) =
            (Except.error d : Except DomainError Bool) := hd
        exact (Except.error.inj h2).symm
      exact ⟨e, ⟨errPrefix, hde⟩, rfl, rfl, rfl, rfl⟩

/-- Claim C2: for every non-IGNORE action the handler appends exactly one
audit entry, whether its body succeeds or raises; on a raise the entry has
success=false, empty before/after snapshots and the error message, and the
handler re-raises an `ActionExecutionError` wrapping that message. -/
theorem handler_audits_exactly_once
    (llm : Option (Case → List String → Except String String))
    (st : Store) (a : Action) (now : Nat) (h : a.type ≠ ActionType.ignore) :
    ∃ entry, (execute_action llm st a now).1.audits = st.audits ++ [entry] ∧
      ((execute_action llm st a now).2 = Except.ok true → entry.success = true) ∧
      (∀ d, (execute_action llm st a now).2 = Except.error d →
        ∃ e, (∃ pre, d = DomainError.action_execution (pre ++ e)) ∧
          entry.success = false ∧ entry.before_state = StateDump.empty ∧
          entry.after_state = StateDump.empty ∧ entry.error_message = some e) := by
  cases hty : a.type
  case ignore => exact absurd hty h
  all_goals
    unfold execute_action
    rw [hty]
    exact finish_spec st a _ now _

/-- For the witness: an UPDATE_CASE action with no case id against an empty
store (the body raises, one failure audit entry is appended). -/
def c2Action : Action :=
  { id := "a-c2", type := ActionType.update_case, case_id := none, triggered_by := "m-c2" }

theorem handler_audits_exactly_once_witness :
    ∃ entry, (execute_action none {} c2Action 7).1.audits = ({} : Store).audits ++ [entry] ∧
      ((execute_action none {} c2Action 7).2 = Except.ok true → entry.success = true) ∧
      (∀ d, (execute_action none {} c2Action 7).2 = Except.error d →
        ∃ e, (∃ pre, d = DomainError.action_execution (pre ++ e)) ∧
          entry.success = false ∧ entry.before_state = StateDump.empty ∧
          entry.after_state = StateDump.empty ∧ entry.error_message = some e) :=
  handler_audits_exactly_once none {} c2Action 7 (by decide)

theorem except_bind_ok {ε α β : Type} (x : α) (f : α → Except ε β) :
    (Except.ok x >>= f : Except ε β) = f x := rfl

theorem transitionE_ok (c : Case) (t : CaseStatus) (now : Nat)
    (h : can_transition c.status t = true) :
    transitionE c t now = Except.ok (transitionResult c t now) := by
  unfold transitionE transition
  rw [h]
  rfl

theorem find_put_case (cs : List Case) (c : Case)
    (hany : cs.any (fun d => d.id == c.id) = true) :
    (cs.map (fun d => if d.id == c.id then c else d)).find? (fun d => d.id == c.id) =
      some c := by
  induction cs with
  | nil => simp at hany
  | cons d rest ih =>
    by_cases hd : d.id = c.id
    · rw [List.map_cons, if_pos (by simp [hd])]
      exact List.find?_cons_of_pos _ (by simp)
    · rw [List.map_cons, if_neg (by simp [hd])]
      rw [List.find?_cons_of_neg _ (by simp [hd])]
      have hany' : rest.any (fun x => x.id == c.id) = true := by
        rcases List.any_eq_true.mp hany with ⟨x, hx, hxe⟩
        rcases List.mem_cons.mp hx with h | h
        · refine absurd ?_ hd
          have h2 : (d.id == c.id) = true := by
            rw [← h]
            exact hxe
          simpa using h2
        · exact List.any_eq_true.mpr ⟨x, h, hxe⟩
      exact ih hany'

theorem find_none_of_any_false (cs : List Case) (c : Case)
    (hany : cs.any (fun d => d.id == c.id) = false) :
    cs.find? (fun d => d.id == c.id) = none := by
  induction cs with
  | nil => rfl
  | cons d rest ih =>
    rw [List.any_cons] at hany
    have h1 : (d.id == c.id) = false := by
      cases h : (d.id == c.id)
      · rfl
      · rw [h] at hany
        simp at hany
    have h2 : rest.any (fun x => x.id == c.id) = false := by
      rw [h1] at hany
      simpa using hany
    rw [List.find?_cons_of_neg _ (by simp [h1])]
    exact ih h2

theorem find_append_case (cs : List Case) (c : Case)
    (hany : cs.any (fun d => d.id == c.id) = false) :
    (cs ++ [c]).find? (fun d => d.id == c.id) = some c := by
  rw [List.find?_append]
  rw [find_none_of_any_false cs c hany]
  simp

/-- A case written through `putCase` is found back under its own id. -/
theorem getCase_putCase_self (cs : List Case) (c : Case) :
    getCaseList (putCase cs c) c.id = some c := by
  unfold putCase getCaseList
  by_cases hany : cs.any (fun d => d.id == c.id) = true
  · rw [if_pos hany]
    exact find_put_case cs c hany
  · rw [if_neg hany]
    exact find_append_case cs c (by simpa using hany)

theorem update_caseE_eval (cs : List Case) (c0 : Case) (now : Nat) (c : Case)
    (hg : getCaseList cs c0.id = some c) :
    update_caseE cs c0 now =
      Except.ok (putCase cs (persisted c0 now), persisted c0 now) := by
  unfold update_caseE update_case get_case
  rw [hg]

/-- Claim C5: a COMPLETE_CASE action on a case in OPEN, IN_PROGRESS or
AWAITING_INFO succeeds — hopping through IN_PROGRESS from OPEN and from
AWAITING_INFO — and the persisted case ends with status COMPLETE and a
completion timestamp, with no invalid-transition error raised. -/
theorem complete_case_two_hop
    (llm : Option (Case → List String → Except String String))
    (st : Store) (a : Action) (now : Nat) (cid : String) (c : Case)
    (hty : a.type = ActionType.complete_case)
    (hcid : a.case_id = some cid) (hne : cid ≠ "")
    (hget : getCaseList st.cases cid = some c) (hid : c.id = cid)
    (hst : c.status = CaseStatus.open_ ∨ c.status = CaseStatus.in_progress ∨
      c.status = CaseStatus.awaiting_info) :
    (execute_action llm st a now).2 = Except.ok true ∧
    ∃ c', getCaseList (execute_action llm st a now).1.cases cid = some c' ∧
      c'.status = CaseStatus.complete ∧ c'.completed_at = some now := by
  have h1 : requireCaseId a "Case ID required for COMPLETE_CASE action" = Except.ok cid := by
    rw [requireCaseId, hcid]
    simp [hne]
  have h2 : getCaseE st.cases cid = Except.ok c := by
    simp [getCaseE, hget]
  have hexec : execute_action llm st a now =
      finish st a "Failed to complete case: " now (complete_case_body st a now) := by
    unfold execute_action
    rw [hty]
  rcases hst with hsc | hsc | hsc
  · have hbody : complete_case_body st a now = Except.ok
        { cases := putCase st.cases (persisted (transitionResult
            (transitionResult c CaseStatus.in_progress now) CaseStatus.complete now) now),
          tasks := st.tasks, audit_case_id := some cid,
          before := StateDump.caseDump c,
          after := StateDump.caseDump (persisted (transitionResult
            (transitionResult c CaseStatus.in_progress now) CaseStatus.complete now) now) } := by
      unfold complete_case_body
      rw [h1]
      simp only [except_bind_ok]
      rw [h2]
      simp only [except_bind_ok]
      rw [if_pos hsc]
      rw [transitionE_ok c CaseStatus.in_progress now (by rw [hsc]; rfl)]
      simp only [except_bind_ok]
      rw [if_neg (show ¬ (transitionResult c CaseStatus.in_progress now).status =
        CaseStatus.awaiting_info by simp [transitionResult])]
      rw [transitionE_ok (transitionResult c CaseStatus.in_progress now)
        CaseStatus.complete now rfl]
      simp only [except_bind_ok]
      rw [update_caseE_eval st.cases
        (transitionResult (transitionResult c CaseStatus.in_progress now)
          CaseStatus.complete now) now c
        (show getCaseList st.cases c.id = some c by rw [hid]; exact hget)]
      rfl
    rw [hexec, hbody]
    refine ⟨rfl, ⟨persisted (transitionResult (transitionResult c CaseStatus.in_progress now)
      CaseStatus.complete now) now, ?_, rfl, rfl⟩⟩
    rw [← hid]
    exact getCase_putCase_self st.cases _
  · have hbody : complete_case_body st a now = Except.ok
        { cases := putCase st.cases (persisted (transitionResult c CaseStatus.complete now) now),
          tasks := st.tasks, audit_case_id := some cid,
          before := StateDump.caseDump c,
          after := StateDump.caseDump
            (persisted (transitionResult c CaseStatus.complete now) now) } := by
      unfold complete_case_body
      rw [h1]
      simp only [except_bind_ok]
      rw [h2]
      simp only [except_bind_ok]
      rw [if_neg (show ¬ c.status = CaseStatus.open_ by simp [hsc])]
      rw [if_neg (show ¬ c.status = CaseStatus.awaiting_info by simp [hsc])]
      rw [transitionE_ok c CaseStatus.complete now (by rw [hsc]; rfl)]
      simp only [except_bind_ok]
      rw [update_caseE_eval st.cases (transitionResult c CaseStatus.complete now) now c
        (show getCaseList st.cases c.id = some c by rw [hid]; exact hget)]
      rfl
    rw [hexec, hbody]
    refine ⟨rfl, ⟨persisted (transitionResult c CaseStatus.complete now) now, ?_, rfl, rfl⟩⟩
    rw [← hid]
    exact getCase_putCase_self st.cases _
  · have hbody : complete_case_body st a now = Except.ok
        { cases := putCase st.cases (persisted (transitionResult
            (transitionResult c CaseStatus.in_progress now) CaseStatus.complete now) now),
          tasks := st.tasks, audit_case_id := some cid,
          before := StateDump.caseDump c,
          after := StateDump.caseDump (persisted (transitionResult
            (transitionResult c CaseStatus.in_progress now) CaseStatus.complete now) now) } := by
      unfold complete_case_body
      rw [h1]
      simp only [except_bind_ok]
      rw [h2]
      simp only [except_bind_ok]
      rw [if_neg (show ¬ c.status = CaseStatus.open_ by simp [hsc])]
      rw [if_pos hsc]
      rw [transitionE_ok c CaseStatus.in_progress now (by rw [hsc]; rfl)]
      simp only [except_bind_ok]
      rw [transitionE_ok (transitionResult c CaseStatus.in_progress now)
        CaseStatus.complete now rfl]
      simp only [except_bind_ok]
      rw [update_caseE_eval st.cases
        (transitionResult (transitionResult c CaseStatus.in_progress now)
          CaseStatus.complete now) now c
        (show getCaseList st.cases c.id = some c by rw [hid]; exact hget)]
      rfl
    rw [hexec, hbody]
    refine ⟨rfl, ⟨persisted (transitionResult (transitionResult c CaseStatus.in_progress now)
      CaseStatus.complete now) now, ?_, rfl, rfl⟩⟩
    rw [← hid]
    exact getCase_putCase_self st.cases _

/-- For the witness: an OPEN LoA case completed through the two-hop rule. -/
def c5Case : Case :=
  { id := "c5", client_name := "F", case_title := "T", case_type := CaseType.loa,
    status := CaseStatus.open_ }

/-- The COMPLETE_CASE action driving the C5 witness. -/
def c5Action : Action :=
  { id := "a-c5", type := ActionType.complete_case, case_id := some "c5",
    triggered_by := "m-c5" }

theorem complete_case_two_hop_witness :
    (execute_action none { cases := [c5Case] } c5Action 9).2 = Except.ok true ∧
    ∃ c', getCaseList (execute_action none { cases := [c5Case] } c5Action 9).1.cases "c5" =
        some c' ∧
      c'.status = CaseStatus.complete ∧ c'.completed_at = some 9 :=
  complete_case_two_hop none { cases := [c5Case] } c5Action 9 "c5" c5Case rfl rfl
    (by decide) (by decide) rfl (Or.inl rfl)

/-- `core/models.py`, `ExtractedEntities`. -/
structure ExtractedEntities where
  client_name : Option String := none
  case_id : Option String := none
  case_title : Option String := none
  field_updates : List (String × String) := []
  missing_fields : List String := []
  confidence : Rat := 1
deriving DecidableEq, Repr

/-- `core/models.py`, `ProcessingResult` (timing omitted: pure I/O). -/
structure ProcessingResult where
  message_id : String
  success : Bool
  classification : Option Classification := none
  extracted_entities : Option ExtractedEntities := none
  actions_taken : List Action := []
  error_message : Option String := none
deriving DecidableEq, Repr

/-- `core/models.py`, `BatchProcessingResult` (timing fixed at 0). -/
structure BatchProcessingResult where
  total_messages : Nat
  processed : Nat
  failed : Nat
  skipped : Nat
  results : List ProcessingResult
  total_time_ms : Rat := 0
deriving DecidableEq, Repr

/-- `BatchProcessingResult.get_success_rate` (`core/models.py`). -/
def BatchProcessingResult.get_success_rate (b : BatchProcessingResult) : Rat :=
  if b.total_messages = 0 then 0
  else ((b.processed : Rat) / (b.total_messages : Rat)) * 100

/-- The external LLM-service boundary as observed by the orchestrator: each
call either returns a value or raises. -/
structure LLMEnv where
  classify : Message → Except String Classification
  extract_entities : Message → Classification → Except String ExtractedEntities
  determine_action : Message → Classification → ExtractedEntities → Option Case →
    Except String Action
  generate_followup_email : Option (Case → List String → Except String String) := none

/-- `CaseRepository.find_case_by_client_and_title`: first stored case for the
client (optionally narrowed by a truthy title) in OPEN, IN_PROGRESS or
AWAITING_INFO. -/
def find_case_by_client_and_title (cs : List Case) (client_name : String)
    (case_title : Option String) : Option Case :=
  cs.find? (fun c => c.client_name == client_name
    && (match case_title with
        | some t => if t = "" then true else c.case_title == t
        | none => true)
    && (c.status == CaseStatus.open_ || c.status == CaseStatus.in_progress
        || c.status == CaseStatus.awaiting_info))

/-- The try-block body of `PipelineOrchestrator.process_message`
(`pipeline/orchestrator.py`): stages pre-filter, classify, extract, match,
decide, route.  A raise carries the store as already mutated up to the raise
point (repository writes performed before the exception persist). -/
def pm_body (env : LLMEnv) (pf : PreFilter) (st : Store) (m : Message) (now : Nat) :
    Except (Store × String) (Store × ProcessingResult) :=
  if ! should_process pf m then
    .ok (st, { message_id := m.id, success := true,
               classification := some prefilterClassification })
  else
    match env.classify m with
    | .error e => .error (st, e)
    | .ok classification =>
      if ! classification.should_process then
        .ok (st, { message_id := m.id, success := true,
                   classification := some classification })
      else
        match env.extract_entities m classification with
        | .error e => .error (st, e)
        | .ok entities =>
          let existing_case := match entities.client_name with
            | some cn =>
              if cn = "" then none
              else find_case_by_client_and_title st.cases cn entities.case_title
            | none => none
          match env.determine_action m classification entities existing_case with
          | .error e => .error (st, e)
          | .ok action0 =>
            let action := match existing_case, action0.case_id with
              | some ec, none => { action0 with case_id := some ec.id }
              | some ec, some cid =>
                if cid = "" then { action0 with case_id := some ec.id } else action0
              | none, _ => action0
            if action.type = ActionType.ignore then
              .ok (st, { message_id := m.id, success := true,
                         classification := some classification,
                         extracted_entities := some entities })
            else
              match route_action env.generate_followup_email st action now with
              | (st', .error d) => .error (st', d.message)
              | (st', .ok ok) =>
                .ok (st', { message_id := m.id, success := true,
                            classification := some classification,
                            extracted_entities := some entities,
                            actions_taken := [{ action with success := some ok }] })

/-- `PipelineOrchestrator.process_message`: the top-level try/except that
downgrades any stage exception to a failed `ProcessingResult`. -/
def process_message (env : LLMEnv) (pf : PreFilter) (st : Store) (m : Message)
    (now : Nat) : Store × ProcessingResult :=
  match pm_body env pf st m now with
  | .ok r => r
  | .error (st', e) =>
    (st', { message_id := m.id, success := false, error_message := some e })

/-- `if result.classification and result.classification.should_process`. -/
def resultIsRelevant (r : ProcessingResult) : Bool :=
  match r.classification with
  | some cl => cl.should_process
  | none => false

/-- Accumulator of `process_batch`: store threaded through the messages in
order plus the per-batch counters. -/
structure BatchAcc where
  store : Store
  results : List ProcessingResult
  processed : Nat
  failed : Nat
  skipped : Nat

/-- The message loop of `PipelineOrchestrator.process_batch`: strictly
sequential, counting processed / skipped / failed exactly as the source. -/
def process_batch_go (env : LLMEnv) (pf : PreFilter) (now : Nat) :
    Store → List Message → BatchAcc
  | st, [] => { store := st, results := [], processed := 0, failed := 0, skipped := 0 }
  | st, m :: rest =>
    let pr := process_message env pf st m now
    let acc := process_batch_go env pf now pr.1 rest
    if pr.2.success then
      if resultIsRelevant pr.2 then
        { acc with results := pr.2 :: acc.results, processed := acc.processed + 1 }
      else
        { acc with results := pr.2 :: acc.results, skipped := acc.skipped + 1 }
    else
      { acc with results := pr.2 :: acc.results, failed := acc.failed + 1 }

/-- `PipelineOrchestrator.process_batch` (`pipeline/orchestrator.py`). -/
def process_batch (env : LLMEnv) (pf : PreFilter) (st : Store) (msgs : List Message)
    (now : Nat) : Store × BatchProcessingResult :=
  ((process_batch_go env pf now st msgs).store,
   { total_messages := msgs.length,
     processed := (process_batch_go env pf now st msgs).processed,
     failed := (process_batch_go env pf now st msgs).failed,
     skipped := (process_batch_go env pf now st msgs).skipped,
     results := (process_batch_go env pf now st msgs).results,
     total_time_ms := 0 })

theorem process_batch_go_spec (env : LLMEnv) (pf : PreFilter) (now : Nat)
    (msgs : List Message) (st : Store) :
    ((process_batch_go env pf now st msgs).results.length = msgs.length) ∧
    ((process_batch_go env pf now st msgs).processed =
      ((process_batch_go env pf now st msgs).results.filter
        (fun r => r.success && resultIsRelevant r)).length) ∧
    ((process_batch_go env pf now st msgs).skipped =
      ((process_batch_go env pf now st msgs).results.filter
        (fun r => r.success && ! resultIsRelevant r)).length) ∧
    ((process_batch_go env pf now st msgs).failed =
      ((process_batch_go env pf now st msgs).results.filter
        (fun r => ! r.success)).length) := by
  induction msgs generalizing st with
  | nil => simp [process_batch_go]
  | cons m rest ih =>
    obtain ⟨ih1, ih2, ih3, ih4⟩ := ih (process_message env pf st m now).1
    unfold process_batch_go
    by_cases hs : (process_message env pf st m now).2.success = true
    · by_cases hr : resultIsRelevant (process_message env pf st m now).2 = true
      · simp [hs, hr, List.filter_cons, ih1, ih2, ih3, ih4]
      · simp [hs, hr, List.filter_cons, ih1, ih2, ih3, ih4]
    · simp [hs, List.filter_cons, ih1, ih2, ih3, ih4]

/-- Claim C6: every exception raised by stages 2-6 is downgraded to a failed
`ProcessingResult` carrying the error message; the batch continues past
failures (one result per input message); processed/skipped/failed count the
successful-relevant, successful-irrelevant and failed results respectively;
and the success rate is processed/total×100. -/
theorem orchestrator_failure_semantics (env : LLMEnv) (pf : PreFilter) (st : Store)
    (msgs : List Message) (m : Message) (now : Nat) :
    (∀ st' e, pm_body env pf st m now = Except.error (st', e) →
      process_message env pf st m now =
        (st', { message_id := m.id, success := false, error_message := some e })) ∧
    ((process_batch env pf st msgs now).2.results.length = msgs.length) ∧
    ((process_batch env pf st msgs now).2.total_messages = msgs.length) ∧
    ((process_batch env pf st msgs now).2.processed =
      ((process_batch env pf st msgs now).2.results.filter
        (fun r => r.success && resultIsRelevant r)).length) ∧
    ((process_batch env pf st msgs now).2.skipped =
      ((process_batch env pf st msgs now).2.results.filter
        (fun r => r.success && ! resultIsRelevant r)).length) ∧
    ((process_batch env pf st msgs now).2.failed =
      ((process_batch env pf st msgs now).2.results.filter
        (fun r => ! r.success)).length) ∧
    (msgs ≠ [] → (process_batch env pf st msgs now).2.get_success_rate =
      ((process_batch env pf st msgs now).2.processed : Rat) / (msgs.length : Rat) * 100) := by
  obtain ⟨h1, h2, h3, h4⟩ := process_batch_go_spec env pf now msgs st
  refine ⟨?_, h1, rfl, h2, h3, h4, ?_⟩
  · intro st' e h
    unfold process_message
    rw [h]
  · intro hne
    have hlen : msgs.length ≠ 0 := fun h => hne (List.length_eq_zero.mp h)
    unfold BatchProcessingResult.get_success_rate
    rw [if_neg (show ¬ (process_batch env pf st msgs now).2.total_messages = 0 from hlen)]
    rfl

/-- Relevant Teams message (contains the keyword "loa"). -/
def c6Good : Message :=
  { id := "good",
    content := MessageContent.teams
      { chat_messages := [{ author := "adv", text := "please send the loa docs" }] } }

/-- Message whose classification stage raises. -/
def c6Bad : Message :=
  { id := "bad",
    content := MessageContent.teams
      { chat_messages := [{ author := "adv", text := "please send the loa docs" }] } }

/-- Blacklisted sender: rejected by the pre-filter, counted as skipped. -/
def c6Spam : Message :=
  { id := "spam",
    content := MessageContent.email
      { from_address := "promo@marketing.com", to_address := "us@x.com",
        subject := "hi", body := "see our offers" } }

/-- Deterministic LLM oracle for the C6 witness: raises on message "bad",
classifies everything else as a relevant LoA response, extracts nothing, and
decides IGNORE. -/
def c6Env : LLMEnv :=
  { classify := fun m =>
      if m.id = "bad" then Except.error "boom"
      else Except.ok
        { category := MessageCategory.loa_response, confidence := 1,
          reasoning := "r", is_relevant := true },
    extract_entities := fun _ _ => Except.ok {},
    determine_action := fun m _ _ _ =>
      Except.ok { id := "a1", type := ActionType.ignore, triggered_by := m.id } }

theorem orchestrator_failure_semantics_witness :
    process_message c6Env defaultPreFilter {} c6Bad 1 =
      ({}, { message_id := c6Bad.id, success := false, error_message := some "boom" }) ∧
    (process_batch c6Env defaultPreFilter {} [c6Good, c6Bad, c6Spam] 1).2.results.length = 3 ∧
    (process_batch c6Env defaultPreFilter {} [c6Good, c6Bad, c6Spam] 1).2.get_success_rate =
      ((process_batch c6Env defaultPreFilter {} [c6Good, c6Bad, c6Spam] 1).2.processed : Rat)
        / (3 : Rat) * 100 := by
  have h := orchestrator_failure_semantics c6Env defaultPreFilter {} [c6Good, c6Bad, c6Spam]
    c6Bad 1
  refine ⟨h.1 {} "boom" rfl, by simpa using h.2.1, ?_⟩
  have hr := h.2.2.2.2.2.2 (by simp)
  simpa using hr

end LoaWorker
